import Mathlib

/-!
Verification development for the Story-Dapp statistics service.

The definitions below are shallow embeddings of the TypeScript source:

- `src/api/routes/dapps.stats.ts` : `calculateChange`, `formatNumber`, the
  `getDappStats` request handler (name resolution and response selection);
- `src/utils/format.ts` : `getTrendFromSparkline`;
- `src/db/queries.ts` : `upsertHourlyTxCount`, `insertHourlyUserOnce`,
  `refreshHourlyUnique` over an explicit relational-state model;
- `src/repos/stats.ts` : the per-transaction classification and bucket
  application of both copies of `StatsRepository.processAddressTransactions`;
- `src/jobs/scheduler.ts` : `runScheduledIngestion`, `triggerIngestion`,
  `triggerIngestionForDapps` as functions on an explicit guard state;
- the Storyscan client `iterateAddressTransactions` pagination loop.

JavaScript numbers are modelled as exact rationals (`Rat`) and machine
timestamps as integers (milliseconds); `Number.prototype.toFixed` is modelled
by exact rounding to the nearest representable decimal, ties toward the larger
value, which is the ECMA-262 definition of `toFixed` on exact inputs.
-/

/-- Floor of a rational as an integer, written with explicit floor division
so that it evaluates inside the kernel. -/
def ratFloor (q : Rat) : Int := q.num.fdiv q.den

/-- Model of ECMA `toFixed(2)` rounding on an exact rational: the integer `n`
such that `n / 100` is as close as possible to `q`, ties picking the larger
`n`, i.e. the floor of `q * 100 + 1 / 2`. -/
def jsToFixed2 (q : Rat) : Int := ratFloor (q * 100 + 1 / 2)

/-- Render a natural number below 100 with exactly two digits. -/
def twoDigits (n : Nat) : String :=
  if n < 10 then "0" ++ Nat.repr n else Nat.repr n

/-- Render `n / 100` with exactly two decimal places, as `toFixed(2)` does. -/
def renderFixed2 (n : Int) : String :=
  (if n < 0 then "-" else "")
    ++ Nat.repr (n.natAbs / 100) ++ "." ++ twoDigits (n.natAbs % 100)

/-- Model of `s.replace(/\.00$/, "")`, written over the character list so
that it evaluates inside the kernel. -/
def stripDot00 (s : String) : String :=
  if s.data.reverse.take 3 = ['0', '0', '.'] then ⟨(s.data.reverse.drop 3).reverse⟩ else s

/-- Embedding of `calculateChange` from `src/api/routes/dapps.stats.ts`
(lines 177-188).  Counts coming out of the aggregation store are
non-negative integers. -/
def calculateChange (current previous : Nat) : String :=
  if previous = 0 then
    if current > 0 then "100%" else "0%"
  else if current = 0 then
    if previous > 0 then "-100%" else "0%"
  else
    let percentage : Rat := ((current : Rat) - (previous : Rat)) / (previous : Rat) * 100
    stripDot00 (renderFixed2 (jsToFixed2 percentage)) ++ "%"

/-- Trend labels returned by `getTrendFromSparkline`. -/
inductive Trend where
  | up
  | down
  | stable
deriving DecidableEq, Repr

/-- Mean of a list of rationals, `0` for the empty list (never taken on an
empty half below because the length-two guard fires first). -/
def listAvg (l : List Rat) : Rat := l.sum / (l.length : Rat)

/-- First half of the series: `data.slice(0, Math.floor(data.length / 2))`. -/
def firstHalf (data : List Rat) : List Rat := data.take (data.length / 2)

/-- Second half of the series: `data.slice(Math.floor(data.length / 2))`. -/
def secondHalf (data : List Rat) : List Rat := data.drop (data.length / 2)

/-- The relative change of the second-half mean against the first-half mean,
times 100, exactly as computed on line 74 of `src/utils/format.ts`. -/
def sparklineChange (data : List Rat) : Rat :=
  (listAvg (secondHalf data) - listAvg (firstHalf data)) / listAvg (firstHalf data) * 100

/-- Embedding of `getTrendFromSparkline` from `src/utils/format.ts`
(lines 65-79).  When the first-half mean is zero, JavaScript divides by zero:
the change is `+Infinity` (second mean positive, compares above 5),
`-Infinity` (second mean negative, compares below -5) or `NaN` (second mean
zero, all comparisons false); the zero-mean branch spells out those three
outcomes, and the main branch is the exact rational computation. -/
def getTrendFromSparkline (data : List Rat) : Trend :=
  if data.length < 2 then .stable
  else if listAvg (firstHalf data) = 0 then
    if listAvg (secondHalf data) > 0 then .up
    else if listAvg (secondHalf data) < 0 then .down
    else .stable
  else
    let change := sparklineChange data
    if change > 5 then .up
    else if change < -5 then .down
    else .stable

/-- Model of ECMA `toFixed(1)` applied to `num / den` for natural `num` and
positive `den`: the result in tenths, rounding to the nearest tenth with ties
toward the larger value, i.e. `floor (10 * num / den + 1 / 2)`. -/
def roundTenths (num den : Nat) : Nat := (20 * num + den) / (2 * den)

/-- Render a tenths value with one decimal place and the trailing `.0`
stripped, as `toFixed(1).replace(/\.0$/, "")` does. -/
def renderFixed1 (t : Nat) : String :=
  if t % 10 = 0 then Nat.repr (t / 10)
  else Nat.repr (t / 10) ++ "." ++ Nat.repr (t % 10)

/-- Embedding of the response-boundary `formatNumber` from
`src/api/routes/dapps.stats.ts` (lines 192-201). -/
def formatNumber (num : Nat) : String :=
  if num ≥ 1000000 then renderFixed1 (roundTenths num 1000000) ++ "M"
  else if num ≥ 1000 then renderFixed1 (roundTenths num 1000) ++ "K"
  else Nat.repr num

/-- Embedding of `formatLargeNumber` from `src/utils/format.ts`
(lines 26-31); unlike the route-local `formatNumber` it has a `B` branch.
The stats route builds its responses with its local `formatNumber` only. -/
def formatLargeNumber (num : Nat) : String :=
  if num < 1000 then Nat.repr num
  else if num < 1000000 then
    Nat.repr (roundTenths num 1000 / 10) ++ "." ++ Nat.repr (roundTenths num 1000 % 10) ++ "K"
  else if num < 1000000000 then
    Nat.repr (roundTenths num 1000000 / 10) ++ "." ++ Nat.repr (roundTenths num 1000000 % 10) ++ "M"
  else
    Nat.repr (roundTenths num 1000000000 / 10) ++ "." ++ Nat.repr (roundTenths num 1000000000 % 10) ++ "B"

/-! ## Relational state model for `src/db/queries.ts`

The two tables the aggregation contract touches are `dapp_stats_hourly`
(primary key `(dapp_id, chain_id, ts_hour)`, columns `tx_count` and
`unique_users`) and `dapp_hourly_users` (primary key
`(dapp_id, chain_id, ts_hour, user_address)`, no payload).  Hours are UTC
hour-start timestamps in milliseconds, modelled as integers. -/

/-- A row of `dapp_stats_hourly`. -/
structure BucketRow where
  dapp : Nat
  chain : Nat
  hour : Int
  txCount : Nat
  uniqueUsers : Nat
deriving DecidableEq, Repr

/-- A row of `dapp_hourly_users`. -/
structure UserRow where
  dapp : Nat
  chain : Nat
  hour : Int
  user : String
deriving DecidableEq, Repr

/-- The relational state consumed by the aggregation contract. -/
structure StatsDB where
  buckets : List BucketRow
  hourlyUsers : List UserRow
deriving DecidableEq, Repr

/-- The empty relational state. -/
def emptyDB : StatsDB := ⟨[], []⟩

/-- Character-wise lowercase, the model of `String.prototype.toLowerCase` on
the ASCII addresses and slugs this service handles, written over the
character list so that it evaluates inside the kernel. -/
def strToLower (s : String) : String := ⟨s.data.map Char.toLower⟩

/-- Primary-key match for `dapp_stats_hourly`. -/
def bucketMatch (d c : Nat) (h : Int) (b : BucketRow) : Bool :=
  b.dapp = d && b.chain = c && b.hour = h

/-- Key match of a `dapp_hourly_users` row against an `(app, chain, hour)`
triple (the user column is unconstrained). -/
def userMatch (d c : Nat) (h : Int) (r : UserRow) : Bool :=
  r.dapp = d && r.chain = c && r.hour = h

/-- Embedding of `upsertHourlyTxCount` from `src/db/queries.ts`
(lines 108-119): `INSERT ... VALUES (d, c, h, delta, 0) ON DUPLICATE KEY
UPDATE tx_count = tx_count + VALUES(tx_count)`. -/
def upsertHourlyTxCount (d c : Nat) (h : Int) (delta : Nat) (db : StatsDB) : StatsDB :=
  if db.buckets.any (bucketMatch d c h) then
    { db with buckets := db.buckets.map fun b =>
        if bucketMatch d c h b then { b with txCount := b.txCount + delta } else b }
  else
    { db with buckets := db.buckets ++ [⟨d, c, h, delta, 0⟩] }

/-- Embedding of `insertHourlyUserOnce` from `src/db/queries.ts`
(lines 121-131): `INSERT IGNORE` of `(d, c, h, userAddress.toLowerCase())`
into `dapp_hourly_users`, a no-op when the primary key already exists. -/
def insertHourlyUserOnce (d c : Nat) (h : Int) (userAddress : String) (db : StatsDB) : StatsDB :=
  let row : UserRow := ⟨d, c, h, strToLower userAddress⟩
  if row ∈ db.hourlyUsers then db
  else { db with hourlyUsers := db.hourlyUsers ++ [row] }

/-- The `SELECT COUNT(*) FROM dapp_hourly_users WHERE dapp_id = ? AND
chain_id = ? AND ts_hour = ?` subquery of `refreshHourlyUnique`. -/
def hourUserCount (d c : Nat) (h : Int) (db : StatsDB) : Nat :=
  (db.hourlyUsers.filter (userMatch d c h)).length

/-- Embedding of `refreshHourlyUnique` from `src/db/queries.ts`
(lines 133-142): `UPDATE dapp_stats_hourly SET unique_users = (subquery)`
on the rows whose key matches. -/
def refreshHourlyUnique (d c : Nat) (h : Int) (db : StatsDB) : StatsDB :=
  { db with buckets := db.buckets.map fun b =>
      if bucketMatch d c h b then { b with uniqueUsers := hourUserCount d c h db } else b }

/-! ## Per-transaction classification in `src/repos/stats.ts`

The file holds two complete copies of `StatsRepository`.  In the first copy
(lines 74-143) `processAddressTransactions` skips a transaction when its
status is exactly `failed` or `reverted`, then skips it as malformed when the
timestamp or the sender hash is missing, and otherwise applies
`upsertHourlyTxCount(+1)` followed by `insertHourlyUserOnce(sender)` on the
floored hour.  In the second copy (lines 342-381) it skips every transaction
whose status is not exactly `success`. -/

/-- `floorToHourUTC` from `src/utils/time.ts` on a millisecond timestamp:
`setUTCMinutes(0, 0, 0)` floors to the enclosing hour in calendar terms,
which is floor division by 3600000 ms. -/
def floorToHourUTC (t : Int) : Int := 3600000 * Int.fdiv t 3600000

/-- Transaction shape seen by the first copy: `status`, `timestamp` and
`from.hash` can each be absent on the wire. -/
structure Tx1 where
  status : Option String
  timestamp : Option Int
  sender : Option String
deriving DecidableEq, Repr

/-- Transaction shape of the second copy (`block_time` and `from` are plain
fields of its `StoryscanTransaction` interface). -/
structure Tx2 where
  status : String
  blockTime : Int
  sender : String
deriving DecidableEq, Repr

/-- The two store writes applied to an accepted transaction: one
`upsertHourlyTxCount(dappId, chainId, tsHour, 1)` and one
`insertHourlyUserOnce(dappId, chainId, tsHour, sender)`. -/
def applyTx (d c : Nat) (tsHour : Int) (sender : String) (db : StatsDB) : StatsDB :=
  insertHourlyUserOnce d c tsHour sender (upsertHourlyTxCount d c tsHour 1 db)

/-- One loop iteration of the first `processAddressTransactions`
(`src/repos/stats.ts` lines 84-138). -/
def processTx1 (d c : Nat) (db : StatsDB) (tx : Tx1) : StatsDB :=
  if tx.status = some "failed" ∨ tx.status = some "reverted" then db
  else
    match tx.timestamp, tx.sender with
    | some t, some s => applyTx d c (floorToHourUTC t) s db
    | _, _ => db

/-- One loop iteration of the second `processAddressTransactions`
(`src/repos/stats.ts` lines 352-376). -/
def processTx2 (d c : Nat) (db : StatsDB) (tx : Tx2) : StatsDB :=
  if tx.status = "success" then applyTx d c (floorToHourUTC tx.blockTime) tx.sender db
  else db

/-- The first copy folded over the stream of yielded transactions. -/
def processAddressTransactions1 (d c : Nat) (db : StatsDB) (txs : List Tx1) : StatsDB :=
  txs.foldl (processTx1 d c) db

/-- The second copy folded over the stream of yielded transactions. -/
def processAddressTransactions2 (d c : Nat) (db : StatsDB) (txs : List Tx2) : StatsDB :=
  txs.foldl (processTx2 d c) db

/-! ## Scheduler guard model for `src/jobs/scheduler.ts`

The only mutable state the three entry points consult is the boolean
`isRunning` field.  Each entry point is modelled as a function from the
guard state (plus the environment facts the body branches on: whether the
active-dapp query returns any rows, and whether the inner ingestion throws)
to the resulting guard state paired with a flag telling whether
`ingestMultipleDapps` was invoked. -/

/-- The scheduler state: the `isRunning` cycle-in-progress guard. -/
structure SchedulerState where
  isRunning : Bool
deriving DecidableEq, Repr

/-- Embedding of `IngestionScheduler.runScheduledIngestion`
(`src/jobs/scheduler.ts` lines 113-150).  If the guard is set the body
returns at once without queueing anything.  Otherwise the guard is set,
active dapps are fetched (`hasDapps` tells whether any were found; if not the
body returns early), `ingestMultipleDapps` runs (`ingestFails` tells whether
it throws; the `catch` swallows the error), and the `finally` block clears
the guard on every path. -/
def runScheduledIngestion (s : SchedulerState) (hasDapps ingestFails : Bool) :
    SchedulerState × Bool :=
  if s.isRunning then (s, false)
  else
    let _ := ingestFails
    (⟨false⟩, hasDapps)

/-- Embedding of `IngestionScheduler.triggerIngestion` (lines 155-158): it
just calls `runScheduledIngestion`. -/
def triggerIngestion (s : SchedulerState) (hasDapps ingestFails : Bool) :
    SchedulerState × Bool :=
  runScheduledIngestion s hasDapps ingestFails

/-- Embedding of `IngestionScheduler.triggerIngestionForDapps`
(lines 163-194).  The body never reads or writes `isRunning`: it queries the
dapps matching the given slugs (`matched` tells whether any row came back; if
not it returns), then calls `ingestMultipleDapps` unconditionally, catching
any error. -/
def triggerIngestionForDapps (s : SchedulerState) (matched ingestFails : Bool) :
    SchedulerState × Bool :=
  let _ := ingestFails
  (s, matched)

/-! ## Storyscan pagination loop

`StoryscanClient.iterateAddressTransactions` walks cursor-linked pages of
transactions.  For each item it compares the timestamp against the cutoff
before yielding: a strictly older item sets `hasMore = false` and breaks out
of the inner item loop without yielding.  That assignment is dead, however:
right after the inner loop, both client variants run
`nextPageParams = response.next_page_params; hasMore = !!nextPageParams;`,
unconditionally overwriting the cutoff stop, so the outer loop keeps crawling
later pages whenever a next-page cursor exists.  The later client variant
additionally caps the walk at `maxPages = 10` pages.  Pages are modelled as
the list of timestamp lists the successive responses would carry, the cursor
chain by list order, and the presence of `next_page_params` by the tail being
nonempty. -/

/-- The inner `for (const tx of response.items)` loop: returns the yielded
timestamps of one page, paired with the flag of the `hasMore = false`
assignment the cutoff break performs (dead in the source, kept here to
mirror it). -/
def yieldPage (cutoff : Int) : List Int → List Int × Bool
  | [] => ([], false)
  | t :: ts =>
    if t < cutoff then ([], true)
    else
      let r := yieldPage cutoff ts
      (t :: r.1, r.2)

/-- The outer page loop with a page budget (the loop guard
`pageCount < maxPages`): each page contributes its items up to the first one
strictly older than the cutoff, and the crawl continues to the next page
whenever the cursor chain has one and the budget is not spent, because the
source overwrites `hasMore` with `!!next_page_params` after every page. -/
def iterPages (cutoff : Int) : Nat → List (List Int) → List Int
  | 0, _ => []
  | _, [] => []
  | Nat.succ fuel, pg :: rest => (yieldPage cutoff pg).1 ++ iterPages cutoff fuel rest

/-- Embedding of `StoryscanClient.iterateAddressTransactions` (later client
variant, `maxPages = 10`), restricted to the yielded timestamp sequence. -/
def iterateAddressTransactions (cutoff : Int) (pages : List (List Int)) : List Int :=
  iterPages cutoff 10 pages

/-! ## Stats endpoint name resolution and response selection

`getDappStats` in `src/api/routes/dapps.stats.ts` validates the request body
(`timeframe` enum, `dapp_names` between 1 and 10 entries), resolves each name
through `dappRepository.getDapp` first on the raw name and then on its
slugified form, answers 404 `success: false` when no name resolved, and
otherwise builds a 200 `success: true` payload with one entry per resolved
dapp.  Database reads are abstracted as a lookup environment. -/

/-- A row of the `dapps` table as the handler consumes it. -/
structure DappRec where
  id : Nat
  title : String
  allTimeTxs : Nat
deriving DecidableEq, Repr

/-- Each maximal whitespace run to a single dash, as `replace(/\s+/g, "-")`
does.  The boolean argument records whether the previous character was
whitespace, so a dash is emitted only at the start of a run and the rest of
the run is swallowed. -/
def wsToDash : List Char → Bool → List Char
  | [], _ => []
  | ch :: cs, prevWs =>
    if ch.isWhitespace then
      if prevWs then wsToDash cs true
      else '-' :: wsToDash cs true
    else ch :: wsToDash cs false

/-- `dappName.toLowerCase().replace(/\s+/g, "-")` (line 93 of the route). -/
def slugify (name : String) : String := ⟨wsToDash (strToLower name).data false⟩

/-- Per-name resolution: `getDapp(name)` first, `getDapp(slugify name)` on a
miss (lines 90-95 of the route). -/
def resolveDapp (env : String → Option DappRec) (name : String) : Option DappRec :=
  match env name with
  | some d => some d
  | none => env (slugify name)

/-- The response shapes the handler can select between. -/
inductive StatsResponse where
  | badRequest
  | notFound
  | ok (data : List DappRec)
deriving DecidableEq, Repr

/-- HTTP status of a response. -/
def statusOf : StatsResponse → Nat
  | .badRequest => 400
  | .notFound => 404
  | .ok _ => 200

/-- The `success` field of a response body. -/
def successOf : StatsResponse → Bool
  | .ok _ => true
  | _ => false

/-- Embedding of the `getDappStats` handler (`src/api/routes/dapps.stats.ts`
lines 60-115 and 158-270), restricted to response selection: schema
validation, name resolution, the 404 branch when nothing resolved, and the
200 payload carrying one entry per resolved dapp.  `tfValid` abstracts the
`timeframe` enum check of the zod schema. -/
def getDappStats (tfValid : Bool) (env : String → Option DappRec)
    (names : List String) : StatsResponse :=
  if tfValid = false ∨ names.length < 1 ∨ 10 < names.length then .badRequest
  else
    let resolved := names.filterMap (resolveDapp env)
    if resolved.length = 0 then .notFound
    else .ok resolved

/-! ## Shared helper lemmas -/

/-- Mapping an idempotent endofunction twice is the same as mapping it once. -/
theorem map_idem_of_pointwise {α : Type} (f : α → α) (hf : ∀ a, f (f a) = f a)
    (l : List α) : (l.map f).map f = l.map f := by
  induction l with
  | nil => rfl
  | cons a t ih => simp [hf, ih]

/-- The per-bucket update of `refreshHourlyUnique` is idempotent. -/
theorem refreshStep_idem (d c : Nat) (h : Int) (n : Nat) (b : BucketRow) :
    (if bucketMatch d c h (if bucketMatch d c h b then { b with uniqueUsers := n } else b)
      then { (if bucketMatch d c h b then { b with uniqueUsers := n } else b) with
              uniqueUsers := n }
      else (if bucketMatch d c h b then { b with uniqueUsers := n } else b))
    = (if bucketMatch d c h b then { b with uniqueUsers := n } else b) := by
  by_cases hb : bucketMatch d c h b
  · simp only [hb, if_pos]
    have : bucketMatch d c h { b with uniqueUsers := n } = bucketMatch d c h b := by
      simp [bucketMatch]
    simp [this, hb]
  · simp [hb]

/-- A refresh keeps the user table unchanged, hence the recomputed count. -/
theorem hourUserCount_refresh (d c d2 c2 : Nat) (h h2 : Int) (db : StatsDB) :
    hourUserCount d c h (refreshHourlyUnique d2 c2 h2 db) = hourUserCount d c h db := rfl

/-- `refreshHourlyUnique` is idempotent. -/
theorem refreshHourlyUnique_idem (d c : Nat) (h : Int) (db : StatsDB) :
    refreshHourlyUnique d c h (refreshHourlyUnique d c h db)
      = refreshHourlyUnique d c h db := by
  simp only [refreshHourlyUnique, hourUserCount_refresh]
  refine congrArg (fun l => StatsDB.mk l db.hourlyUsers) ?_
  exact map_idem_of_pointwise _ (refreshStep_idem d c h (hourUserCount d c h db)) db.buckets

/-- `insertHourlyUserOnce` is idempotent. -/
theorem insertHourlyUserOnce_idem (d c : Nat) (h : Int) (u : String) (db : StatsDB) :
    insertHourlyUserOnce d c h u (insertHourlyUserOnce d c h u db)
      = insertHourlyUserOnce d c h u db := by
  by_cases hc : (⟨d, c, h, strToLower u⟩ : UserRow) ∈ db.hourlyUsers
  · simp [insertHourlyUserOnce, hc]
  · simp [insertHourlyUserOnce, hc]

/-- `insertHourlyUserOnce` only depends on the lowercased address. -/
theorem insertHourlyUserOnce_toLower_congr (d c : Nat) (h : Int) (u v : String)
    (db : StatsDB) (huv : strToLower u = strToLower v) :
    insertHourlyUserOnce d c h v db = insertHourlyUserOnce d c h u db := by
  simp [insertHourlyUserOnce, huv]

/-- A zero hour-count means no row carries that `(app, chain, hour)` key. -/
theorem not_mem_of_hourUserCount_zero (d c : Nat) (h : Int) (s : String) (db : StatsDB)
    (h0 : hourUserCount d c h db = 0) : (⟨d, c, h, s⟩ : UserRow) ∉ db.hourlyUsers := by
  intro hmem
  have : (⟨d, c, h, s⟩ : UserRow) ∈ db.hourlyUsers.filter (userMatch d c h) := by
    refine List.mem_filter.mpr ⟨hmem, ?_⟩
    simp [userMatch]
  have hpos : 0 < (db.hourlyUsers.filter (userMatch d c h)).length :=
    List.length_pos.mpr (List.ne_nil_of_mem this)
  simp only [hourUserCount] at h0
  omega

/-- The inner page loop yields the `takeWhile (cutoff ≤ ·)` prefix of the
page. -/
theorem yieldPage_fst (cutoff : Int) (pg : List Int) :
    (yieldPage cutoff pg).1 = pg.takeWhile (fun t => decide (cutoff ≤ t)) := by
  induction pg with
  | nil => simp [yieldPage]
  | cons t ts ih =>
    by_cases h : t < cutoff
    · have hq : ¬ (cutoff ≤ t) := Int.not_le.mpr h
      simp [yieldPage, h, List.takeWhile_cons, hq]
    · have hq : cutoff ≤ t := Int.not_lt.mp h
      simp [yieldPage, h, List.takeWhile_cons, hq, ih]

/-- The page loop yields, for every page within the budget, that page's
`takeWhile (cutoff ≤ ·)` prefix — later pages keep contributing even after
the cutoff fired in an earlier page. -/
theorem iterPages_eq (cutoff : Int) (pages : List (List Int)) (fuel : Nat) :
    iterPages cutoff fuel pages
      = ((pages.take fuel).map
          (fun pg => pg.takeWhile (fun t => decide (cutoff ≤ t)))).flatten := by
  induction pages generalizing fuel with
  | nil => cases fuel <;> simp [iterPages]
  | cons pg rest ih =>
    cases fuel with
    | zero => simp [iterPages]
    | succ n =>
      rw [show iterPages cutoff (Nat.succ n) (pg :: rest)
            = (yieldPage cutoff pg).1 ++ iterPages cutoff n rest from rfl]
      rw [List.take_succ_cons, List.map_cons, List.flatten_cons, yieldPage_fst, ih n]

/-- Closed form of the `toFixed(2)` argument as a single integer fraction,
used to evaluate the percentage computation on concrete counts. -/
theorem calcChange_percent_eq (c p : Nat) (hp : 0 < p) :
    ((c : Rat) - (p : Rat)) / (p : Rat) * 100 * 100 + 1 / 2
      = Rat.divInt (20000 * ((c : Int) - (p : Int)) + p) (2 * p) := by
  rw [Rat.divInt_eq_div]
  have hp0 : (p : Rat) ≠ 0 := by exact_mod_cast hp.ne'
  push_cast
  field_simp
  ring

/-- C1: for all non-negative counts, `calculateChange` answers `100%` when
the previous count is zero and the current one positive, `0%` when both are
zero, `-100%` when the current count is zero and the previous one positive,
and otherwise renders `(current - previous) / previous * 100` with at most
two decimal places, stripping a trailing `.00`; in particular
`change(0,0) = 0%`, `change(5,0) = 100%`, `change(0,5) = -100%`,
`change(150,100) = 50%` and `change(100,150) = -33.33%`. -/
theorem calculateChange_spec (c p : Nat) :
    (p = 0 → 0 < c → calculateChange c p = "100%")
    ∧ (p = 0 → c = 0 → calculateChange c p = "0%")
    ∧ (c = 0 → 0 < p → calculateChange c p = "-100%")
    ∧ (0 < c → 0 < p →
        calculateChange c p
          = stripDot00 (renderFixed2 (jsToFixed2
              (((c : Rat) - (p : Rat)) / (p : Rat) * 100))) ++ "%")
    ∧ calculateChange 0 0 = "0%" ∧ calculateChange 5 0 = "100%"
    ∧ calculateChange 0 5 = "-100%" ∧ calculateChange 150 100 = "50%"
    ∧ calculateChange 100 150 = "-33.33%" := by
  have hgen : ∀ c2 p2 : Nat, 0 < c2 → 0 < p2 →
      calculateChange c2 p2
        = stripDot00 (renderFixed2 (jsToFixed2
            (((c2 : Rat) - (p2 : Rat)) / (p2 : Rat) * 100))) ++ "%" := by
    intro c2 p2 hc hp
    simp [calculateChange, Nat.pos_iff_ne_zero.mp hc, Nat.pos_iff_ne_zero.mp hp]
  refine ⟨?_, ?_, ?_, hgen c p, by decide, by decide, by decide, ?_, ?_⟩
  · intro hp hc
    simp [calculateChange, hp, hc]
  · intro hp hc
    simp [calculateChange, hp, hc]
  · intro hc hp
    simp [calculateChange, hc, hp, Nat.pos_iff_ne_zero.mp hp]
  · rw [hgen 150 100 (by norm_num) (by norm_num)]
    rw [show jsToFixed2 ((((150 : Nat) : Rat) - ((100 : Nat) : Rat)) / ((100 : Nat) : Rat) * 100) = 5000 from ?_]
    · decide
    · unfold jsToFixed2
      rw [calcChange_percent_eq 150 100 (by norm_num)]
      decide
  · rw [hgen 100 150 (by norm_num) (by norm_num)]
    rw [show jsToFixed2 ((((100 : Nat) : Rat) - ((150 : Nat) : Rat)) / ((150 : Nat) : Rat) * 100) = -3333 from ?_]
    · decide
    · unfold jsToFixed2
      rw [calcChange_percent_eq 100 150 (by norm_num)]
      decide

/-- Witness for C1: the generic branch facts applied at concrete counts. -/
theorem calculateChange_spec_witness :
    calculateChange 7 0 = "100%" ∧ calculateChange 0 9 = "-100%" :=
  ⟨(calculateChange_spec 7 0).1 rfl (by decide),
   (calculateChange_spec 0 9).2.2.1 rfl (by decide)⟩

/-- C5: `getTrendFromSparkline` answers `stable` on series of fewer than two
points, and otherwise compares the relative change of the second-half mean
against the first-half mean with the `+5` and `-5` thresholds; when the
first-half mean is zero that relative change is infinite (or undefined when
the second-half mean is also zero) and the comparison outcome is given by the
sign of the second-half mean. -/
theorem getTrendFromSparkline_spec (data : List Rat) :
    (data.length < 2 → getTrendFromSparkline data = Trend.stable)
    ∧ (2 ≤ data.length → listAvg (firstHalf data) ≠ 0 →
        getTrendFromSparkline data =
          if sparklineChange data > 5 then Trend.up
          else if sparklineChange data < -5 then Trend.down
          else Trend.stable)
    ∧ (2 ≤ data.length → listAvg (firstHalf data) = 0 →
        getTrendFromSparkline data =
          if listAvg (secondHalf data) > 0 then Trend.up
          else if listAvg (secondHalf data) < 0 then Trend.down
          else Trend.stable) := by
  refine ⟨?_, ?_, ?_⟩
  · intro h
    simp [getTrendFromSparkline, h]
  · intro h h0
    rw [getTrendFromSparkline]
    rw [if_neg (by omega), if_neg h0]
  · intro h h0
    rw [getTrendFromSparkline]
    rw [if_neg (by omega), if_pos h0]

/-- Witness for C5: a one-point series is classified `stable`. -/
theorem getTrendFromSparkline_spec_witness :
    getTrendFromSparkline [7] = Trend.stable :=
  (getTrendFromSparkline_spec [7]).1 (by decide)

/-- Counterexample for C6: the series `[10, 11, 9, 10]` has first-half mean
`21/2` and second-half mean `19/2`, a relative change of about `-9.52`
percent, below the `-5` threshold, so the code answers `down`, not the
`stable` the claim demands. -/
theorem trend_series_counterexample :
    getTrendFromSparkline [10, 11, 9, 10] = Trend.down
    ∧ getTrendFromSparkline [10, 11, 9, 10] ≠ Trend.stable := by
  have h : getTrendFromSparkline [10, 11, 9, 10] = Trend.down := by
    norm_num [getTrendFromSparkline, sparklineChange, listAvg, firstHalf, secondHalf]
  refine ⟨h, ?_⟩
  rw [h]
  decide

/-- C6 amended: the trend classifier answers `up` on
`[10, 10, 10, 20, 20, 20]`, `down` on `[20, 20, 20, 10, 10, 10]`, `down`
(not `stable`) on `[10, 11, 9, 10]`, and `stable` on every series of length
zero or one. -/
theorem trend_examples :
    getTrendFromSparkline [10, 10, 10, 20, 20, 20] = Trend.up
    ∧ getTrendFromSparkline [20, 20, 20, 10, 10, 10] = Trend.down
    ∧ getTrendFromSparkline [10, 11, 9, 10] = Trend.down
    ∧ getTrendFromSparkline [] = Trend.stable
    ∧ (∀ q : Rat, getTrendFromSparkline [q] = Trend.stable) := by
  refine ⟨?_, ?_, ?_, by decide, fun q => by simp [getTrendFromSparkline]⟩
  · norm_num [getTrendFromSparkline, sparklineChange, listAvg, firstHalf, secondHalf]
  · norm_num [getTrendFromSparkline, sparklineChange, listAvg, firstHalf, secondHalf]
  · norm_num [getTrendFromSparkline, sparklineChange, listAvg, firstHalf, secondHalf]

/-- C7: `insertHourlyUserOnce` is idempotent, so applying it twice leaves the
hourly-user set (hence its cardinality) as after one application, and
`refreshHourlyUnique` is idempotent when no insert happens in between, so the
bucket counter (and the whole state) is unchanged by the second refresh. -/
theorem recordUserOnce_refresh_idempotent (d c : Nat) (h : Int) (u : String) (db : StatsDB) :
    insertHourlyUserOnce d c h u (insertHourlyUserOnce d c h u db)
        = insertHourlyUserOnce d c h u db
    ∧ refreshHourlyUnique d c h (refreshHourlyUnique d c h db)
        = refreshHourlyUnique d c h db :=
  ⟨insertHourlyUserOnce_idem d c h u db, refreshHourlyUnique_idem d c h db⟩

/-- C9: addresses are lowercased before insertion, so recording two spellings
of the same address that agree up to letter case adds a single member, and
when the hour previously had no member at all the resulting distinct count
for that hour is exactly one. -/
theorem insert_lowercases_users (d c : Nat) (h : Int) (u v : String) (db : StatsDB)
    (huv : strToLower u = strToLower v) :
    insertHourlyUserOnce d c h v (insertHourlyUserOnce d c h u db)
        = insertHourlyUserOnce d c h u db
    ∧ (hourUserCount d c h db = 0 →
        hourUserCount d c h (insertHourlyUserOnce d c h v (insertHourlyUserOnce d c h u db)) = 1) := by
  have hins : insertHourlyUserOnce d c h v (insertHourlyUserOnce d c h u db)
      = insertHourlyUserOnce d c h u db := by
    rw [insertHourlyUserOnce_toLower_congr d c h u v _ huv]
    exact insertHourlyUserOnce_idem d c h u db
  refine ⟨hins, fun h0 => ?_⟩
  rw [hins]
  have hnot := not_mem_of_hourUserCount_zero d c h (strToLower u) db h0
  simp only [insertHourlyUserOnce, if_neg hnot]
  simp only [hourUserCount, List.filter_append]
  rw [List.length_append]
  have : (List.filter (userMatch d c h) [(⟨d, c, h, strToLower u⟩ : UserRow)]).length = 1 := by
    simp [userMatch]
  rw [this]
  simp only [hourUserCount] at h0
  omega

/-- Witness for C9: two case-variant spellings of one address inserted into
the empty state leave exactly one distinct user for the hour. -/
theorem insert_lowercases_users_witness :
    insertHourlyUserOnce 1 1 0 "0xAbC" (insertHourlyUserOnce 1 1 0 "0xaBc" emptyDB)
        = insertHourlyUserOnce 1 1 0 "0xaBc" emptyDB
    ∧ hourUserCount 1 1 0 (insertHourlyUserOnce 1 1 0 "0xAbC"
        (insertHourlyUserOnce 1 1 0 "0xaBc" emptyDB)) = 1 := by
  have h := insert_lowercases_users 1 1 0 "0xaBc" "0xAbC" emptyDB (by decide)
  exact ⟨h.1, h.2 (by decide)⟩

/-- Counterexample for C2: a transaction with status `pending` is discarded
by the second copy of `processAddressTransactions` (state unchanged, no
bucket increment, no user recorded), while the first copy applies it; the
claim that every non-failed, non-reverted status is accepted therefore fails
on the second copy. -/
theorem processTx2_rejects_pending :
    processTx2 1 1 emptyDB ⟨"pending", 0, "0xabc"⟩ = emptyDB
    ∧ processTx1 1 1 emptyDB ⟨some "pending", some 0, some "0xabc"⟩
        = applyTx 1 1 0 "0xabc" emptyDB
    ∧ applyTx 1 1 0 "0xabc" emptyDB ≠ emptyDB := by
  refine ⟨by decide, ?_, by decide⟩
  show processTx1 1 1 emptyDB ⟨some "pending", some 0, some "0xabc"⟩
      = applyTx 1 1 0 "0xabc" emptyDB
  decide

/-- C2 amended: in the first copy of `processAddressTransactions` a
transaction is discarded exactly when its status is `failed` or `reverted`
or it lacks a timestamp or sender, every other transaction receiving one
`upsertHourlyTxCount(+1)` and one `insertHourlyUserOnce(sender)` on its
floored hour; in the duplicated second copy only transactions with status
exactly `success` are applied and every other status is discarded. -/
theorem processTx_classification (d c : Nat) (db : StatsDB) (tx : Tx1) (tx2 : Tx2) :
    (tx.status = some "failed" ∨ tx.status = some "reverted" → processTx1 d c db tx = db)
    ∧ (tx.status ≠ some "failed" → tx.status ≠ some "reverted" →
        ∀ t s, tx.timestamp = some t → tx.sender = some s →
          processTx1 d c db tx = applyTx d c (floorToHourUTC t) s db)
    ∧ (tx.timestamp = none ∨ tx.sender = none → processTx1 d c db tx = db)
    ∧ (tx2.status = "success" →
        processTx2 d c db tx2 = applyTx d c (floorToHourUTC tx2.blockTime) tx2.sender db)
    ∧ (tx2.status ≠ "success" → processTx2 d c db tx2 = db) := by
  refine ⟨?_, ?_, ?_, ?_, ?_⟩
  · intro hst
    simp [processTx1, hst]
  · intro h1 h2 t s ht hs
    simp [processTx1, h1, h2, ht, hs]
  · intro hmal
    by_cases hst : tx.status = some "failed" ∨ tx.status = some "reverted"
    · simp [processTx1, hst]
    · rcases hmal with hm | hm <;> simp [processTx1, hst, hm]
  · intro hst
    simp [processTx2, hst]
  · intro hst
    simp [processTx2, hst]

/-- Witness for C2: the generic classification applied to one accepted and
one rejected concrete transaction. -/
theorem processTx_classification_witness :
    processTx1 1 1 emptyDB ⟨some "success", some 3600000, some "0xA"⟩
        = applyTx 1 1 3600000 "0xA" emptyDB
    ∧ processTx2 1 1 emptyDB ⟨"failed", 0, "0xA"⟩ = emptyDB := by
  have h1 := (processTx_classification 1 1 emptyDB
      ⟨some "success", some 3600000, some "0xA"⟩ ⟨"failed", 0, "0xA"⟩).2.1
      (by decide) (by decide) 3600000 "0xA" rfl rfl
  have h2 := (processTx_classification 1 1 emptyDB
      ⟨some "success", some 3600000, some "0xA"⟩ ⟨"failed", 0, "0xA"⟩).2.2.2.2
      (by decide)
  refine ⟨?_, h2⟩
  rw [h1]
  rw [show floorToHourUTC 3600000 = 3600000 from by decide]

/-- Counterexample for C3: with the cycle-in-progress guard set, a scheduled
tick performs no ingestion, but the manual per-slug trigger still invokes the
ingestion driver — it is not governed by the guard. -/
theorem triggerForDapps_ignores_guard :
    (triggerIngestionForDapps ⟨true⟩ true false).2 = true
    ∧ (triggerIngestionForDapps ⟨true⟩ true false).1 = ⟨true⟩
    ∧ (runScheduledIngestion ⟨true⟩ true false).2 = false := by
  decide

/-- C3 amended: a scheduled tick that fires while the guard is set performs
no ingestion at all and leaves the state unchanged; otherwise the guard is
cleared at the end of the cycle whether or not ingestion fails, and the
ingestion driver runs exactly when active dapps exist; the parameterless
manual trigger shares the guard by delegating to the scheduled path; the
per-slug manual trigger, however, neither consults nor sets the guard and
invokes the driver whenever matching dapps exist, even while a cycle is in
progress. -/
theorem scheduler_guard_spec (s : SchedulerState) (hasDapps ingestFails matched : Bool) :
    (s.isRunning = true → runScheduledIngestion s hasDapps ingestFails = (s, false))
    ∧ (s.isRunning = false →
        runScheduledIngestion s hasDapps ingestFails = (⟨false⟩, hasDapps))
    ∧ triggerIngestion s hasDapps ingestFails = runScheduledIngestion s hasDapps ingestFails
    ∧ triggerIngestionForDapps s matched ingestFails = (s, matched) := by
  refine ⟨?_, ?_, rfl, rfl⟩
  · intro h
    simp [runScheduledIngestion, h]
  · intro h
    simp [runScheduledIngestion, h]

/-- Witness for C3 amended: the guard-set and guard-clear branches evaluated
on concrete states. -/
theorem scheduler_guard_spec_witness :
    runScheduledIngestion ⟨true⟩ true true = (⟨true⟩, false)
    ∧ runScheduledIngestion ⟨false⟩ true true = (⟨false⟩, true) :=
  ⟨(scheduler_guard_spec ⟨true⟩ true true false).1 rfl,
   (scheduler_guard_spec ⟨false⟩ true true false).2.1 rfl⟩

/-- C4: the cutoff does not terminate the stream.  On a first page whose
only transaction is strictly older than the cutoff and a second page with a
newer one, the stream still yields the second page's transaction, because
the `hasMore = false` set by the cutoff break is dead: the source overwrites
it with `!!next_page_params` right after the inner loop and keeps crawling.
What does hold: each page contributes exactly its prefix of transactions at
or after the cutoff (the rest of a page after an older transaction is
skipped), so a transaction strictly older than the cutoff is still never
yielded. -/
theorem iterate_cutoff_bug :
    iterateAddressTransactions 100 [[50], [200]] = [200]
    ∧ iterateAddressTransactions 100 [[50], [200]] ≠ []
    ∧ (∀ (cutoff : Int) (pages : List (List Int)),
        iterateAddressTransactions cutoff pages
          = ((pages.take 10).map
              (fun pg => pg.takeWhile (fun t => decide (cutoff ≤ t)))).flatten)
    ∧ (∀ (cutoff : Int) (pages : List (List Int)),
        (iterateAddressTransactions cutoff pages).all
          (fun t => decide (cutoff ≤ t)) = true) := by
  refine ⟨by decide, by decide, fun cutoff pages => iterPages_eq cutoff pages 10, ?_⟩
  intro cutoff pages
  rw [show iterateAddressTransactions cutoff pages = iterPages cutoff 10 pages from rfl,
    iterPages_eq cutoff pages 10, List.all_eq_true]
  intro x hx
  rw [List.mem_flatten] at hx
  obtain ⟨sub, hsub, hxsub⟩ := hx
  rw [List.mem_map] at hsub
  obtain ⟨pg, hpg, rfl⟩ := hsub
  have hpx := List.mem_takeWhile_imp hxsub
  exact hpx

/-- C8: on a schema-valid request (valid timeframe, 1 to 10 names), the
stats handler answers HTTP 404 with `success: false` exactly when no
requested name resolves to a known application, and otherwise answers the
200 payload carrying one entry per resolved name. -/
theorem getDappStats_notFound_spec (tfValid : Bool) (env : String → Option DappRec)
    (names : List String) (htf : tfValid = true) (h1 : 1 ≤ names.length)
    (h2 : names.length ≤ 10) :
    ((∀ n ∈ names, resolveDapp env n = none) →
        statusOf (getDappStats tfValid env names) = 404
        ∧ successOf (getDappStats tfValid env names) = false)
    ∧ (statusOf (getDappStats tfValid env names) = 404 →
        ∀ n ∈ names, resolveDapp env n = none)
    ∧ ((∃ n ∈ names, (resolveDapp env n).isSome) →
        getDappStats tfValid env names = .ok (names.filterMap (resolveDapp env))) := by
  subst htf
  have hcond : ¬(true = false ∨ names.length < 1 ∨ 10 < names.length) := by
    push_neg
    refine ⟨by simp, by omega, by omega⟩
  simp only [getDappStats, if_neg hcond]
  by_cases hres : (names.filterMap (resolveDapp env)).length = 0
  · have hall : ∀ n ∈ names, resolveDapp env n = none := by
      rw [List.length_eq_zero] at hres
      exact List.filterMap_eq_nil_iff.mp hres
    simp only [if_pos hres]
    refine ⟨fun _ => ⟨rfl, rfl⟩, fun _ => hall, ?_⟩
    rintro ⟨n, hn, hsome⟩
    rw [hall n hn] at hsome
    simp at hsome
  · simp only [if_neg hres]
    refine ⟨?_, ?_, fun _ => by trivial⟩
    · intro hall
      exact absurd (by rw [List.length_eq_zero]; exact List.filterMap_eq_nil_iff.mpr hall) hres
    · intro h404
      simp [statusOf] at h404

/-- Witness for C8: a single unknown name yields 404 with success false. -/
theorem getDappStats_notFound_spec_witness :
    statusOf (getDappStats true (fun _ => none) ["unknown-app"]) = 404
    ∧ successOf (getDappStats true (fun _ => none) ["unknown-app"]) = false :=
  (getDappStats_notFound_spec true (fun _ => none) ["unknown-app"] rfl (by decide)
    (by decide)).1 (fun n _ => rfl)

/-- C10: the response-boundary `formatNumber` renders plain decimals below
one thousand, thousands with one decimal place and suffix `K` up to one
million, and everything at or above one million with one decimal place and
suffix `M` after dividing by one million, stripping a trailing `.0`; it has
no billions branch, so values at or above one billion still carry `M`. -/
theorem formatNumber_spec (n : Nat) :
    (n < 1000 → formatNumber n = Nat.repr n)
    ∧ (1000 ≤ n → n < 1000000 → formatNumber n = renderFixed1 (roundTenths n 1000) ++ "K")
    ∧ (1000000 ≤ n → formatNumber n = renderFixed1 (roundTenths n 1000000) ++ "M")
    ∧ (1000000000 ≤ n → ∃ s, formatNumber n = s ++ "M")
    ∧ formatNumber 999 = "999" ∧ formatNumber 1000 = "1K" ∧ formatNumber 27200 = "27.2K"
    ∧ formatNumber 1500000 = "1.5M" ∧ formatNumber 2500000000 = "2500M" := by
  refine ⟨?_, ?_, ?_, ?_, by decide, by decide, by decide, by decide, by decide⟩
  · intro h
    rw [formatNumber, if_neg (by omega), if_neg (by omega)]
  · intro hlo hhi
    rw [formatNumber, if_neg (by omega), if_pos (by omega)]
  · intro h
    rw [formatNumber, if_pos (by omega)]
  · intro h
    exact ⟨renderFixed1 (roundTenths n 1000000), by rw [formatNumber, if_pos (by omega)]⟩

/-- Witness for C10: the sub-thousand branch evaluated at 999. -/
theorem formatNumber_spec_witness : formatNumber 999 = Nat.repr 999 :=
  (formatNumber_spec 999).1 (by decide)
